import Mathlib

/-
Verification of the Markov-chain bot core (repository TofuXR/markov-chain-bot).

The repository contains two implementations of the same engine:
  * `app/markov.py` (SQLAlchemy based; functions `save_to_database`,
    `word_exists_in_db`, `get_random_word_from_db`, `build_markov_model`,
    `generate_message`), with the schema in `app/models.py`
    (primary key `(chat_id, word1, word2, next_word)`, no weight column), and
  * the standalone `telegram_markov_bot.py` (classes `DatabaseManager` and
    `MarkovChainGenerator`).

Shallow embedding conventions:
  * the database is a list of rows plus a `failing` flag; a storage-layer
    exception is modelled by `failing = true`: every primitive touching the
    database errors (or, where the code catches, degrades) in that case;
  * Python dictionaries (`defaultdict`) are association lists keeping
    insertion order, like CPython dicts;
  * `random.choice(l)` is modelled by an externally supplied natural number
    `r`, picking `l[r % len l]`; `random.choices(words, weights)` picks the
    bucket containing `r % (sum of weights)` in the cumulative distribution,
    which has exactly the support and relative weights of the source;
  * timestamps are naturals supplied by the caller (`now`).
-/

def START_TOKEN : String := "<START>"

def END_TOKEN : String := "<END>"

/-- A row of the `markov_data` table (`app/models.py`, class `MarkovData`):
primary key `(chat_id, word1, word2, next_word)` plus the two timestamps.
There is no weight column. -/
structure Row where
  chat_id : Int
  word1 : String
  word2 : String
  next_word : String
  created_at : Nat
  updated_at : Nat
deriving DecidableEq, Repr

/-- The storage substrate: the stored rows, plus a flag modelling a
storage-layer fault (every primitive raises while `failing = true`). -/
structure DB where
  rows : List Row
  failing : Bool
deriving DecidableEq, Repr

abbrev WordTriple := String × String × String

/-- Key projection of a row: the primary-key columns
`(chat_id, word1, word2, next_word)`. -/
def projRow (r : Row) : Int × String × String × String :=
  (r.chat_id, r.word1, r.word2, r.next_word)

/-- The word columns of a row, as fetched by
`SELECT word1, word2, next_word`. -/
def triOf (r : Row) : WordTriple :=
  (r.word1, r.word2, r.next_word)

/-- Row match used by `save_to_database`
(`filter_by(chat_id=…, word1=…, word2=…, next_word=…)`). -/
def rowMatches (chat : Int) (w1 w2 nw : String) (r : Row) : Bool :=
  r.chat_id == chat && r.word1 == w1 && r.word2 == w2 && r.next_word == nw

/-- `instance.updated_at = func.now()` on the first matching row
(SQLAlchemy `.first()`; the primary key makes at most one match possible). -/
def updateFirst (rows : List Row) (chat : Int) (w1 w2 nw : String) (now : Nat) :
    List Row :=
  match rows with
  | [] => []
  | r :: rest =>
    if rowMatches chat w1 w2 nw r then { r with updated_at := now } :: rest
    else r :: updateFirst rest chat w1 w2 nw now

/-- One upsert of `save_to_database` (`app/markov.py` lines 29-39): if a row
with the key exists, refresh its `updated_at`; otherwise insert a fresh row.
The PostgreSQL `ON CONFLICT DO UPDATE` branch has the same key behaviour. -/
def upsertRow (rows : List Row) (chat : Int) (w1 w2 nw : String) (now : Nat) :
    List Row :=
  if rows.any (rowMatches chat w1 w2 nw) then updateFirst rows chat w1 w2 nw now
  else rows ++ [⟨chat, w1, w2, nw, now, now⟩]

/-- The `for word1, word2, next_word in word_pairs` loop of
`save_to_database`. -/
def saveLoop (rows : List Row) (chat : Int) (pairs : List WordTriple)
    (now : Nat) : List Row :=
  pairs.foldl (fun rs p => upsertRow rs chat p.1 p.2.1 p.2.2 now) rows

/-- `save_to_database(db, chat_id, word_pairs)` (`app/markov.py` lines 13-43):
no-op on an empty pair list; the whole transaction is wrapped in
`try/except`, so on a storage fault it rolls back and returns with the store
unchanged. -/
def save_to_database (db : DB) (chat : Int) (pairs : List WordTriple)
    (now : Nat) : DB :=
  if pairs = [] then db
  else if db.failing then db
  else { db with rows := saveLoop db.rows chat pairs now }

/-- `word_exists_in_db(db, chat_id, word)` (`app/markov.py` lines 46-56):
`SELECT COUNT(*) WHERE chat_id = ? AND (word1 = ? OR word2 = ?)`, with the
`except` branch returning `False`. Note: no marker exclusion. -/
def word_exists_in_db (db : DB) (chat : Int) (word : String) : Bool :=
  if db.failing then false
  else
    decide (0 < db.rows.countP
      (fun r => r.chat_id == chat && (r.word1 == word || r.word2 == word)))

/-- `get_random_word_from_db(db, chat_id)` (`app/markov.py` lines 59-70):
`SELECT word1 WHERE chat_id = ? AND word1 NOT IN (markers) ORDER BY random()
LIMIT 1`; `None` on no data, `None` on a storage fault (caught). -/
def get_random_word_from_db (db : DB) (chat : Int) (r : Nat) : Option String :=
  if db.failing then none
  else
    let cands := (db.rows.filter
      (fun rw => rw.chat_id == chat && rw.word1 != START_TOKEN
        && rw.word1 != END_TOKEN)).map (fun rw => rw.word1)
    cands.get? (r % cands.length)

/-- The read performed inside `build_markov_model` (`app/markov.py` lines
74-76): `SELECT word1, word2, next_word WHERE chat_id = ?`. It is NOT wrapped
in `try/except`, so a storage fault propagates. -/
def fetchTriples (db : DB) (chat : Int) : Except String (List WordTriple) :=
  if db.failing then Except.error "database error"
  else Except.ok
    ((db.rows.filter (fun r => r.chat_id == chat)).map triOf)

/-- The number of stored rows carrying a given order-2 edge
`(context, successor)` for a conversation: this is exactly the weight that
`build_markov_model` accumulates for that edge (one `+= 1` per fetched row). -/
def edgeWeight (db : DB) (chat : Int) (ctx : String × String) (succ : String) :
    Nat :=
  db.rows.countP (fun r => r.chat_id == chat && r.word1 == ctx.1
    && r.word2 == ctx.2 && r.next_word == succ)

/-- A Markov context: a bare word for chain order 1, a word pair for
order 2 (Python uses a string or a 2-tuple as the dictionary key). -/
inductive Ctx where
  | one : String → Ctx
  | two : String → String → Ctx
deriving DecidableEq, Repr

/-- Successor map of one context: insertion-ordered `word ↦ count`. -/
abbrev Succs := List (String × Nat)

/-- The transitions dictionary: insertion-ordered `context ↦ successors`. -/
abbrev Transitions := List (Ctx × Succs)

/-- `transitions[key][word] += 1` on the inner `defaultdict(int)`. -/
def bump : Succs → String → Succs
  | [], w => [(w, 1)]
  | (a, n) :: rest, w =>
    if a = w then (a, n + 1) :: rest else (a, n) :: bump rest w

/-- `transitions[key][word] += 1` on the outer `defaultdict`. -/
def addEdge : Transitions → Ctx → String → Transitions
  | [], k, w => [(k, [(w, 1)])]
  | (k0, s) :: rest, k, w =>
    if k0 = k then (k0, bump s w) :: rest else (k0, s) :: addEdge rest k w

/-- Dictionary lookup (`key in transitions` / `transitions[key]`). -/
def lookupT : Transitions → Ctx → Option Succs
  | [], _ => none
  | (k0, s) :: rest, k => if k0 = k then some s else lookupT rest k

/-- `transitions.keys()`, in insertion order. -/
def keysT (t : Transitions) : List Ctx :=
  t.map (fun p => p.1)

/-- `s[1]` of a state (the word itself in order 1). -/
def trailing : Ctx → String
  | Ctx.one w => w
  | Ctx.two _ b => b

/-- `s[0]` of a state (the word itself in order 1). -/
def leading : Ctx → String
  | Ctx.one w => w
  | Ctx.two a _ => a

/-- Whether a state is a pair (`isinstance(state_key, tuple)`). -/
def isTwo : Ctx → Bool
  | Ctx.one _ => false
  | Ctx.two _ _ => true

/-- One iteration of the model-building loop shared by both implementations
(`app/markov.py` lines 84-92, `telegram_markov_bot.py` lines 173-182):
record a starting state when `word1` is the start marker and increment the
edge count for the fetched row. -/
def buildStep (order : Nat) : Transitions × List Ctx → WordTriple →
    Transitions × List Ctx
  | (t, starts), (w1, w2, nw) =>
    if order = 1 then
      (addEdge t (Ctx.one w1) w2,
       if w1 = START_TOKEN then starts ++ [Ctx.one w2] else starts)
    else
      (addEdge t (Ctx.two w1 w2) nw,
       if w1 = START_TOKEN then starts ++ [Ctx.two w1 w2] else starts)

/-- `build_markov_model(db, chat_id)` (`app/markov.py` lines 73-94): fetch the
conversation rows (fault propagates: the fetch is not in a `try`), return
`(None, None)` on no data, otherwise fold the rows into the transitions
dictionary and the starting-state list. -/
def build_markov_model (order : Nat) (db : DB) (chat : Int) :
    Except String (Option (Transitions × List Ctx)) :=
  match fetchTriples db chat with
  | Except.error e => Except.error e
  | Except.ok data =>
    if data = [] then Except.ok none
    else Except.ok (some (data.foldl (buildStep order) ([], [])))

/-- `random.choice(l)` driven by an external random value: `l[r % len l]`,
`none` exactly when the list is empty. -/
def choice {α : Type} (l : List α) (r : Nat) : Option α :=
  l.get? (r % l.length)

/-- `random.choice` at a call site where the list is known non-empty:
the default is never reached there. -/
def choiceD {α : Type} (l : List α) (d : α) (r : Nat) : α :=
  (choice l r).getD d

/-- Sum of the candidate weights. -/
def totalW (s : Succs) : Nat :=
  (s.map (fun p => p.2)).sum

/-- Cumulative bucket selection: the bucket of `r` in the cumulative weight
distribution (the last entry absorbs the remainder, as the top cumulative
bound does for `random.choices`). -/
def pickCum : Succs → Nat → String
  | [], _ => END_TOKEN
  | [(w, _)], _ => w
  | (w, c) :: s :: rest, r => if r < c then w else pickCum (s :: rest) (r - c)

/-- `random.choices(words, weights, k=1)[0]` driven by an external random
value `r`: the candidate whose cumulative-weight bucket contains
`r % total`. -/
def weightedPick (s : Succs) (r : Nat) : String :=
  pickCum s (r % totalW s)

/-- Whether the end marker is a candidate successor
(`"<END>" in next_words_map`). -/
def hasEnd (s : Succs) : Bool :=
  s.any (fun p => p.1 == END_TOKEN)

/-- The boosted end-marker count of `app/markov.py` lines 137-140, in exact
arithmetic: `int(count * (1 + 4 * (len - L*0.5) / (L - L*0.5)))`. Since
`1 + 4*(len - L/2)/(L/2) = (8*len - 3*L)/L`, the truncated product equals
`count * (8*len - 3*L) / L` in natural division (the numerator is positive
whenever this branch runs, because there `2*len > L`). -/
def boostCount (c msgLen L : Nat) : Nat :=
  c * (8 * msgLen - 3 * L) / L

/-- Successor selection of one walk iteration (`app/markov.py` lines
130-148): past the soft limit (`len > L*0.5`) and with the end marker
available, boost the end marker weight; past the hard limit (`len > L`)
force the end marker; otherwise draw from the (possibly boosted) weighted
distribution. -/
def chooseNext (succs : Succs) (msgLen L r : Nat) : String :=
  if 2 * msgLen > L ∧ hasEnd succs then
    let boosted := succs.map
      (fun p => if p.1 = END_TOKEN then (p.1, boostCount p.2 msgLen L) else p)
    if msgLen > L then END_TOKEN
    else weightedPick boosted r
  else weightedPick succs r

/-- State advance after emitting `nw` (`app/markov.py` lines 155-158):
order-1 state becomes the emitted word, order-2 state shifts. (The
`Ctx.one` case under order 2 never arises: order-2 runs only build
`Ctx.two` states.) -/
def advance (order : Nat) (st : Ctx) (nw : String) : Ctx :=
  if order = 1 then Ctx.one nw
  else
    match st with
    | Ctx.two _ b => Ctx.two b nw
    | Ctx.one a => Ctx.two a nw

/-- The `while current_state and len(message) < max_length * 1.5` loop of
`generate_message` (`app/markov.py` lines 126-158), with explicit fuel.
`len(message) < max_length * 1.5` is `2 * msg.length < 3 * L` exactly. Each
iteration either stops or appends one token while `2 * len < 3 * L` held, so
the loop runs fewer than `3 * L + 2` iterations; `walkFrom` below supplies
that much fuel, hence the fuel case never decides the result. -/
def walkAux (order : Nat) (t : Transitions) (L : Nat) :
    Nat → Ctx → List String → List Nat → List String
  | 0, _, msg, _ => msg
  | Nat.succ fuel, st, msg, rands =>
    if 2 * msg.length < 3 * L then
      match lookupT t st with
      | none => msg
      | some succs =>
        let nw := chooseNext succs msg.length L (rands.headD 0)
        if nw = END_TOKEN then msg
        else walkAux order t L fuel (advance order st nw) (msg ++ [nw])
          rands.tail
    else msg

/-- The generation walk, entered with the initial message list. -/
def walkFrom (order : Nat) (t : Transitions) (L : Nat) (st : Ctx)
    (msg : List String) (rands : List Nat) : List String :=
  walkAux order t L (3 * L + 2) st msg rands

def notEnoughMsg : String :=
  "Hmph. I don\x27t have enough data to say anything. Don\x27t expect me to talk if you don\x27t talk first, baka!"

def cantThinkMsg : String :=
  "I tried, but I couldn\x27t think of anything to say... It\x27s not like I wanted to talk to you anyway!"

/-- The final filter of `generate_message` (`app/markov.py` line 163):
`word for word in message if word not in ["<START>", "<END>"]`. -/
def finalTokens (msg : List String) : List String :=
  msg.filter (fun w => w != START_TOKEN && w != END_TOKEN)

/-- The model-building, initial-state-selection and walk part of
`generate_message` (`app/markov.py` lines 97-158), producing the pre-filter
message list: `Except.error` when the model fetch faults, `.ok none` when
there are no starting states (`if not starting_states`), otherwise the
walked message list. Initial state selection: order 1 takes the seed itself
when it is a transition key, else a random starting state; order 2 takes a
random starting state whose trailing word is the seed, else a random
starting state (there is no relaxed leading-word fallback here). -/
def generateTokens (order : Nat) (db : DB) (chat : Int) (L : Nat)
    (seed : Option String) (rands : List Nat) :
    Except String (Option (List String)) :=
  match build_markov_model order db chat with
  | Except.error e => Except.error e
  | Except.ok none => Except.ok none
  | Except.ok (some (t, starts)) =>
    match starts with
    | [] => Except.ok none
    | s0 :: srest =>
      let starting := s0 :: srest
      if order = 1 then
        match seed with
        | some w =>
          if w ≠ "" ∧ (lookupT t (Ctx.one w)).isSome then
            Except.ok (some (walkFrom order t L (Ctx.one w) [w] rands))
          else
            let st := choiceD starting s0 (rands.headD 0)
            Except.ok (some (walkFrom order t L st [trailing st] rands.tail))
        | none =>
          let st := choiceD starting s0 (rands.headD 0)
          Except.ok (some (walkFrom order t L st [trailing st] rands.tail))
      else
        let seeded := match seed with
          | some w => if w = "" then [] else
              starting.filter (fun s => trailing s == w)
          | none => []
        match seeded with
        | v0 :: vrest =>
          let st := choiceD (v0 :: vrest) v0 (rands.headD 0)
          Except.ok (some (walkFrom order t L st [trailing st] rands.tail))
        | [] =>
          let st := choiceD starting s0 (rands.headD 0)
          Except.ok (some (walkFrom order t L st [trailing st] rands.tail))

/-- `generate_message(db, chat_id, max_length, starting_word)`
(`app/markov.py` lines 97-163): fixed "not enough data" reply when there are
no starting states, fixed "couldn\x27t think of anything" reply when the
pre-filter message list is empty, otherwise the marker-filtered tokens
joined with single spaces. A storage fault during the model fetch
propagates. -/
def generate_message (order : Nat) (db : DB) (chat : Int) (L : Nat)
    (seed : Option String) (rands : List Nat) : Except String String :=
  match generateTokens order db chat L seed rands with
  | Except.error e => Except.error e
  | Except.ok none => Except.ok notEnoughMsg
  | Except.ok (some msg) =>
    if msg = [] then Except.ok cantThinkMsg
    else Except.ok (String.intercalate " " (finalTokens msg))

/-- The token list whose space-join `generate_message` returns on its
success path (empty on the fixed-reply and error paths). -/
def resultTokens (order : Nat) (db : DB) (chat : Int) (L : Nat)
    (seed : Option String) (rands : List Nat) : List String :=
  match generateTokens order db chat L seed rands with
  | Except.ok (some msg) => finalTokens msg
  | _ => []

/-- The wrapping of an ingested token sequence
(`app/telegram_markov_bot.py` line 73): `["<START>"] + words + ["<END>"]`. -/
def wrapTokens (ws : List String) : List String :=
  [START_TOKEN] ++ ws ++ [END_TOKEN]

/-- The sliding window of `app/telegram_markov_bot.py` lines 74-75:
`(seq[i], seq[i+1], seq[i+2]) for i in range(len(seq) - 2)`. -/
def windows3 : List String → List WordTriple
  | a :: b :: c :: rest => (a, b, c) :: windows3 (b :: c :: rest)
  | _ => []

/-- `DatabaseManager.fetch_markov_data` (`telegram_markov_bot.py` lines
141-155): all rows, or one conversation; the whole body is wrapped in
`try/except` returning `[]` on a database error. -/
def fetch_markov_data (db : DB) (chat : Option Int) : List WordTriple :=
  if db.failing then []
  else
    match chat with
    | none => db.rows.map triOf
    | some c => (db.rows.filter (fun r => r.chat_id == c)).map triOf

/-- `MarkovChainGenerator._build_model` (`telegram_markov_bot.py` lines
164-194): fetch (errors already degraded to `[]`), fold the rows as in
`buildStep`, then filter the raw starting states, keeping only those whose
emitted word (the state itself for order 1, `s[1]` for order 2) is not a
marker. -/
def MCG_build (order : Nat) (db : DB) (chat : Option Int) :
    Option (Transitions × List Ctx) :=
  let data := fetch_markov_data db chat
  if data = [] then none
  else
    let tr := data.foldl (buildStep order) ([], [])
    let starts :=
      if order = 1 then
        tr.2.filter (fun s => trailing s != START_TOKEN
          && trailing s != END_TOKEN)
      else
        tr.2.filter (fun s => trailing s != START_TOKEN
          && trailing s != END_TOKEN)
    some (tr.1, starts)

/-- The unseeded branch of `_get_initial_state_and_message` for order 2
(`telegram_markov_bot.py` lines 233-237): a random starting state that is a
transition key; `(None, [])` when there is none. -/
def MCG_unseeded2 (t : Transitions) (starts : List Ctx) (r : Nat) :
    Option Ctx × List String :=
  let valid := starts.filter (fun s => (lookupT t s).isSome)
  match choice valid r with
  | some st => (some st, [trailing st])
  | none => (none, [])

/-- `MarkovChainGenerator._get_initial_state_and_message`
(`telegram_markov_bot.py` lines 196-239). Order 1: the seed itself when it
is a non-marker transition key, else a random starting state that is a key,
else a random non-marker key. Order 2: a random starting state whose
trailing word is the seed; else (relaxed fallback) a random transition key
whose leading word is the seed, emitting BOTH of its words; else a random
starting state. -/
def MCG_initial (order : Nat) (t : Transitions) (starts : List Ctx)
    (seed : Option String) (r : Nat) : Option Ctx × List String :=
  if starts = [] then (none, [])
  else if order = 1 then
    let seedOk := match seed with
      | some w =>
        if w ≠ "" ∧ (lookupT t (Ctx.one w)).isSome ∧ w ≠ START_TOKEN
            ∧ w ≠ END_TOKEN then some w
        else none
      | none => none
    match seedOk with
    | some w => (some (Ctx.one w), [w])
    | none =>
      let valid := starts.filter (fun s => (lookupT t s).isSome)
      match choice valid r with
      | some st => (some st, [trailing st])
      | none =>
        let fallbackKeys := (keysT t).filter
          (fun k => trailing k != START_TOKEN && trailing k != END_TOKEN)
        match choice fallbackKeys r with
        | some st => (some st, [trailing st])
        | none => (none, [])
  else
    match seed with
    | some w =>
      if w = "" then MCG_unseeded2 t starts r
      else
        let possible := starts.filter
          (fun s => trailing s == w && (lookupT t s).isSome)
        match choice possible r with
        | some st => (some st, [trailing st])
        | none =>
          let alternative := (keysT t).filter
            (fun k => isTwo k && leading k == w && leading k != START_TOKEN)
          match choice alternative r with
          | some st => (some st, [leading st, trailing st])
          | none => MCG_unseeded2 t starts r
    | none => MCG_unseeded2 t starts r

/-- `MarkovChainGenerator._generate_next_word` (`telegram_markov_bot.py`
lines 241-263): the end marker when the state is unknown or has no
successors; the end marker when the message already has `max_len` tokens
and the end marker is a candidate; otherwise a weighted draw over the
candidates with the start marker filtered out (the end marker again when
that filter leaves nothing). -/
def MCG_nextWord (t : Transitions) (st : Ctx) (msgLen maxLen r : Nat) :
    String :=
  match lookupT t st with
  | none => END_TOKEN
  | some succs =>
    if succs = [] then END_TOKEN
    else if msgLen ≥ maxLen ∧ hasEnd succs then END_TOKEN
    else
      let valid := succs.filter (fun p => p.1 != START_TOKEN)
      if valid = [] then END_TOKEN
      else weightedPick valid r

/-- The `for _ in range(max_length - len(message_parts))` loop of
`MarkovChainGenerator.generate` (`telegram_markov_bot.py` lines 292-306):
the iteration count is fixed on entry; stop on the end marker; append and
advance otherwise (appending, then stopping, when an order-2 state is not a
pair). -/
def MCG_loop (order : Nat) (t : Transitions) (maxLen : Nat) :
    Nat → Ctx → List String → List Nat → List String
  | 0, _, parts, _ => parts
  | Nat.succ n, st, parts, rands =>
    let nw := MCG_nextWord t st parts.length maxLen (rands.headD 0)
    if nw = END_TOKEN then parts
    else
      if order = 1 then
        MCG_loop order t maxLen n (Ctx.one nw) (parts ++ [nw]) rands.tail
      else
        match st with
        | Ctx.two _ b =>
          MCG_loop order t maxLen n (Ctx.two b nw) (parts ++ [nw]) rands.tail
        | Ctx.one _ => parts ++ [nw]

/-- Outcome of one generation attempt of `MarkovChainGenerator.generate`
before the reply strings are chosen. -/
inductive RunOut where
  | noModel : RunOut
  | noStart : RunOut
  | words : List String → RunOut
deriving DecidableEq, Repr

/-- One generation attempt of `MarkovChainGenerator.generate`
(`telegram_markov_bot.py` lines 265-308): build the model (`noModel` when
`not transitions or not starting_states`), select the initial state
(`noStart` when `not current_state or not message_parts`), run the walk
loop, and filter the markers from the final words. -/
def MCG_run (order : Nat) (db : DB) (chat : Option Int) (maxLen : Nat)
    (seed : Option String) (rands : List Nat) : RunOut :=
  match MCG_build order db chat with
  | none => RunOut.noModel
  | some (t, starts) =>
    if t = [] ∨ starts = [] then RunOut.noModel
    else
      match MCG_initial order t starts seed (rands.headD 0) with
      | (none, _) => RunOut.noStart
      | (some st, parts) =>
        if parts = [] then RunOut.noStart
        else RunOut.words ((MCG_loop order t maxLen (maxLen - parts.length)
          st parts rands.tail).filter
            (fun w => w != START_TOKEN && w != END_TOKEN))

def botNotEnoughMsg : String :=
  "I don\x27t have enough data to generate a message yet!"

def botTroubleMsg : String :=
  "I\x27m having trouble starting a message right now!"

def botCoherentMsg : String :=
  "I don\x27t have enough data to generate a coherent message yet!"

/-- `MarkovChainGenerator.generate` as entered with `_is_fallback_call`
already `True` (`telegram_markov_bot.py` lines 265-322): the guard
suppresses any further retry, so each failure resolves to its fixed
reply. -/
def MCG_generate1 (order : Nat) (db : DB) (chat : Int) (maxLen : Nat)
    (useAll : Bool) (seed : Option String) (rands : List Nat) : String :=
  match MCG_run order db (if useAll then none else some chat) maxLen seed
      rands with
  | RunOut.noModel => botNotEnoughMsg
  | RunOut.noStart => botTroubleMsg
  | RunOut.words ws =>
    if ws = [] then botCoherentMsg else String.intercalate " " ws

/-- `MarkovChainGenerator.generate` as called from outside
(`_is_fallback_call = False`): a failed initial-state selection or an empty
post-filter word list retries exactly once without the seed word (the retry
runs with the flag set, i.e. as `MCG_generate1`); without a seed word the
fixed replies are returned directly. -/
def MCG_generate (order : Nat) (db : DB) (chat : Int) (maxLen : Nat)
    (useAll : Bool) (seed : Option String) (rands : List Nat) : String :=
  match MCG_run order db (if useAll then none else some chat) maxLen seed
      rands with
  | RunOut.noModel => botNotEnoughMsg
  | RunOut.noStart =>
    if seed.isSome then MCG_generate1 order db chat maxLen useAll none rands
    else botTroubleMsg
  | RunOut.words ws =>
    if ws = [] then
      if seed.isSome then MCG_generate1 order db chat maxLen useAll none rands
      else botCoherentMsg
    else String.intercalate " " ws

/-- Whether a context key is present in the model `generate_message` builds
for a conversation (false on fault or no data). -/
def hasCtx (order : Nat) (db : DB) (chat : Int) (k : Ctx) : Bool :=
  match build_markov_model order db chat with
  | Except.ok (some (t, _)) => (lookupT t k).isSome
  | _ => false

/-- Whether the model `generate_message` builds has a starting state whose
trailing word is `w` (false on fault or no data). -/
def hasStartTrailing (order : Nat) (db : DB) (chat : Int) (w : String) :
    Bool :=
  match build_markov_model order db chat with
  | Except.ok (some (_, starts)) => starts.any (fun s => trailing s == w)
  | _ => false

/-- Primary-key projection of a whole store. -/
def projAll (rows : List Row) : List (Int × String × String × String) :=
  rows.map projRow

/-- The windowed pairs of the ingested two-word message "a b". -/
def pairsAB : List WordTriple :=
  windows3 (wrapTokens ["a", "b"])

/-- Store after ingesting "a b" once into conversation 1. -/
def c1db1 : DB :=
  save_to_database ⟨[], false⟩ 1 pairsAB 0

/-- Store after ingesting "a b" twice (identical input) into
conversation 1. -/
def c1db2 : DB :=
  save_to_database c1db1 1 pairsAB 1

/-- A store whose only starting state resolves straight to the end marker:
the walk emits nothing but markers. -/
def c3db : DB :=
  ⟨[⟨1, "<START>", "<END>", "<END>", 0, 0⟩], false⟩

/-- A store on which the standalone bot generator, seeded with the end
marker, reaches the relaxed leading-word fallback and then filters away the
whole message. -/
def c3bot : DB :=
  ⟨[⟨1, "<START>", "a", "<END>", 0, 0⟩,
    ⟨1, "<END>", "<END>", "<START>", 0, 0⟩], false⟩

/-- A store with one starting context `(START, a)` and one non-starting
context `(z, q)`: the seed "z" matches no starting state but leads the
context `(z, q)`. -/
def c4db : DB :=
  ⟨[⟨1, "<START>", "a", "b", 0, 0⟩, ⟨1, "a", "b", "<END>", 0, 0⟩,
    ⟨1, "z", "q", "<END>", 0, 0⟩], false⟩

/-- The transitions of `c4db`, as the bot generator builds them. -/
def c4t : Transitions :=
  [(Ctx.two "<START>" "a", [("b", 1)]), (Ctx.two "a" "b", [("<END>", 1)]),
   (Ctx.two "z" "q", [("<END>", 1)])]

/-- Store after ingesting "a b" once (used against `word_exists_in_db`). -/
def c5db : DB :=
  save_to_database ⟨[], false⟩ 1 (windows3 (wrapTokens ["a", "b"])) 0

/-- A one-row store already holding the triple `(START, a, b)`. -/
def c9db : DB :=
  ⟨[⟨1, "<START>", "a", "b", 3, 3⟩], false⟩

/-- A re-save of the triple already present in `c9db`. -/
def c9pairs : List WordTriple :=
  [("<START>", "a", "b")]

/-- A transitions table whose single context has the end marker among its
successors. -/
def c7t : Transitions :=
  [(Ctx.two "a" "b", [("<END>", 1), ("c", 2)])]

/-- A store whose next operation raises a storage-layer error. -/
def failDB : DB :=
  ⟨[], true⟩

lemma rowMatches_iff (c : Int) (w1 w2 nw : String) (r : Row) :
    rowMatches c w1 w2 nw r = true ↔ projRow r = (c, w1, w2, nw) := by
  simp [rowMatches, projRow, Prod.ext_iff, and_assoc]

lemma any_rowMatches (rows : List Row) (c : Int) (w1 w2 nw : String) :
    rows.any (rowMatches c w1 w2 nw) = true ↔
      (c, w1, w2, nw) ∈ projAll rows := by
  simp [projAll, List.any_eq_true, List.mem_map, rowMatches_iff]

lemma updateFirst_projAll (rows : List Row) (c : Int) (w1 w2 nw : String)
    (now : Nat) : projAll (updateFirst rows c w1 w2 nw now) = projAll rows := by
  induction rows with
  | nil => rfl
  | cons r rest ih =>
    by_cases h : rowMatches c w1 w2 nw r = true
    · simp [updateFirst, h, projAll, projRow]
    · simp only [updateFirst, h, if_false, Bool.not_eq_true] at *
      simp [projAll] at ih ⊢
      exact ih

lemma upsert_projAll (rows : List Row) (c : Int) (w1 w2 nw : String)
    (now : Nat) :
    projAll (upsertRow rows c w1 w2 nw now) =
      if (c, w1, w2, nw) ∈ projAll rows then projAll rows
      else projAll rows ++ [(c, w1, w2, nw)] := by
  unfold upsertRow
  by_cases h : rows.any (rowMatches c w1 w2 nw) = true
  · rw [if_pos h, updateFirst_projAll,
      if_pos ((any_rowMatches rows c w1 w2 nw).mp h)]
  · have h2 : (c, w1, w2, nw) ∉ projAll rows := fun hm =>
      h ((any_rowMatches rows c w1 w2 nw).mpr hm)
    rw [if_neg h, if_neg h2]
    simp [projAll, projRow]

lemma upsert_mem_self (rows : List Row) (c : Int) (w1 w2 nw : String)
    (now : Nat) :
    (c, w1, w2, nw) ∈ projAll (upsertRow rows c w1 w2 nw now) := by
  rw [upsert_projAll]
  split
  · assumption
  · simp

lemma upsert_mem_mono (rows : List Row) (c : Int) (w1 w2 nw : String)
    (now : Nat) (k : Int × String × String × String)
    (hk : k ∈ projAll rows) :
    k ∈ projAll (upsertRow rows c w1 w2 nw now) := by
  rw [upsert_projAll]
  split
  · exact hk
  · exact List.mem_append_left _ hk

lemma saveLoop_cons (rows : List Row) (c : Int) (q : WordTriple)
    (rest : List WordTriple) (now : Nat) :
    saveLoop rows c (q :: rest) now =
      saveLoop (upsertRow rows c q.1 q.2.1 q.2.2 now) c rest now := rfl

lemma saveLoop_mem_mono (c : Int) (now : Nat)
    (k : Int × String × String × String) :
    ∀ (pairs : List WordTriple) (rows : List Row), k ∈ projAll rows →
      k ∈ projAll (saveLoop rows c pairs now) := by
  intro pairs
  induction pairs with
  | nil => intro rows hk; exact hk
  | cons q rest ih =>
    intro rows hk
    rw [saveLoop_cons]
    exact ih _ (upsert_mem_mono _ _ _ _ _ _ _ hk)

lemma saveLoop_mem (c : Int) (now : Nat) :
    ∀ (pairs : List WordTriple) (rows : List Row) (p : WordTriple),
      p ∈ pairs →
      (c, p.1, p.2.1, p.2.2) ∈ projAll (saveLoop rows c pairs now) := by
  intro pairs
  induction pairs with
  | nil => intro rows p hp; cases hp
  | cons q rest ih =>
    intro rows p hp
    rw [saveLoop_cons]
    rcases List.mem_cons.mp hp with he | hm
    · subst he
      exact saveLoop_mem_mono c now _ rest _ (upsert_mem_self _ _ _ _ _ _)
    · exact ih _ p hm

lemma saveLoop_id (c : Int) (now : Nat) :
    ∀ (pairs : List WordTriple) (rows : List Row),
      (∀ p ∈ pairs, (c, p.1, p.2.1, p.2.2) ∈ projAll rows) →
      projAll (saveLoop rows c pairs now) = projAll rows := by
  intro pairs
  induction pairs with
  | nil => intro rows _; rfl
  | cons q rest ih =>
    intro rows h
    rw [saveLoop_cons]
    have hq : projAll (upsertRow rows c q.1 q.2.1 q.2.2 now) = projAll rows := by
      rw [upsert_projAll, if_pos (h q (List.mem_cons_self _ _))]
    rw [ih _ (fun p hp => hq ▸ h p (List.mem_cons_of_mem _ hp)), hq]

lemma upsert_nodup (rows : List Row) (c : Int) (w1 w2 nw : String) (now : Nat)
    (h : (projAll rows).Nodup) :
    (projAll (upsertRow rows c w1 w2 nw now)).Nodup := by
  rw [upsert_projAll]
  split
  · exact h
  · simp [List.nodup_append, h]
    assumption

lemma saveLoop_nodup (c : Int) (now : Nat) :
    ∀ (pairs : List WordTriple) (rows : List Row),
      (projAll rows).Nodup → (projAll (saveLoop rows c pairs now)).Nodup := by
  intro pairs
  induction pairs with
  | nil => intro rows h; exact h
  | cons q rest ih =>
    intro rows h
    rw [saveLoop_cons]
    exact ih _ (upsert_nodup _ _ _ _ _ _ h)

lemma updateFirst_sets (c : Int) (w1 w2 nw : String) (now : Nat) :
    ∀ rows : List Row, rows.any (rowMatches c w1 w2 nw) = true →
      (updateFirst rows c w1 w2 nw now).any
        (fun r => rowMatches c w1 w2 nw r && r.updated_at == now) = true := by
  intro rows
  induction rows with
  | nil => intro h; cases h
  | cons r rest ih =>
    intro h
    by_cases hr : rowMatches c w1 w2 nw r = true
    · have hr2 : rowMatches c w1 w2 nw { r with updated_at := now } = true := by
        simp [rowMatches] at hr ⊢
        exact hr
      simp [updateFirst, hr, hr2]
    · have hrest : rest.any (rowMatches c w1 w2 nw) = true := by
        simp [List.any_cons, hr] at h
        simp [List.any_eq_true]
        exact h
      simp [updateFirst, hr, List.any_cons, ih hrest]

lemma fetch_filter_proj (chat : Int) :
    ∀ rows : List Row,
      (rows.filter (fun r => r.chat_id == chat)).map triOf =
        ((rows.map projRow).filter (fun q => q.1 == chat)).map
          (fun q => q.2) := by
  intro rows
  induction rows with
  | nil => rfl
  | cons r rest ih =>
    by_cases h : (r.chat_id == chat) = true
    · simp [List.filter_cons, h, projRow, triOf, ih]
    · simp [List.filter_cons, h, projRow, ih]

lemma fetchTriples_eq_proj (db : DB) (chat : Int) (h : db.failing = false) :
    fetchTriples db chat =
      Except.ok (((projAll db.rows).filter (fun q => q.1 == chat)).map
        (fun q => q.2)) := by
  simp [fetchTriples, h, projAll, fetch_filter_proj]

lemma countP_projAll (rows : List Row) (chatQ : Int) (ctx : String × String)
    (succ : String) :
    (rows.countP (fun r => r.chat_id == chatQ && r.word1 == ctx.1
        && r.word2 == ctx.2 && r.next_word == succ)) =
      ((projAll rows).countP (fun q => q.1 == chatQ && q.2.1 == ctx.1
        && q.2.2.1 == ctx.2 && q.2.2.2 == succ)) := by
  unfold projAll
  rw [List.countP_map]
  rfl

lemma save_preserves_proj_twice (db : DB) (chat : Int)
    (pairs : List WordTriple) (t1 t2 : Nat) :
    projAll (save_to_database (save_to_database db chat pairs t1) chat pairs
        t2).rows =
      projAll (save_to_database db chat pairs t1).rows ∧
    (save_to_database (save_to_database db chat pairs t1) chat pairs
        t2).failing =
      (save_to_database db chat pairs t1).failing := by
  by_cases hp : pairs = []
  · simp [save_to_database, hp]
  · by_cases hf : db.failing = true
    · simp [save_to_database, hp, hf]
    · have hf2 : db.failing = false := by
        cases hb : db.failing
        · rfl
        · exact absurd hb hf
      refine ⟨?_, by simp [save_to_database, hp, hf2]⟩
      simp only [save_to_database, hp, if_neg, hf2, Bool.false_eq_true,
        if_false, ite_false]
      apply saveLoop_id
      intro p hpmem
      exact saveLoop_mem chat t1 pairs db.rows p hpmem

/-- Claim C1 (amended form): calling `save_to_database` twice with identical
input leaves the observable model exactly unchanged — the store deduplicates
on the primary key `(chat_id, word1, word2, next_word)` (there is no weight
column; a re-observed triple only refreshes `updated_at`), so after the
second call `build_markov_model` returns the identical transitions and every
`(context, successor)` edge carries the identical weight, not twice the
weight. -/
theorem claim_C1 (order : Nat) (db : DB) (chat : Int)
    (pairs : List WordTriple) (t1 t2 : Nat) (chatQ : Int)
    (ctx : String × String) (succ : String) :
    build_markov_model order (save_to_database (save_to_database db chat
        pairs t1) chat pairs t2) chatQ =
      build_markov_model order (save_to_database db chat pairs t1) chatQ ∧
    edgeWeight (save_to_database (save_to_database db chat pairs t1) chat
        pairs t2) chatQ ctx succ =
      edgeWeight (save_to_database db chat pairs t1) chatQ ctx succ := by
  obtain ⟨hrows, hfail⟩ := save_preserves_proj_twice db chat pairs t1 t2
  have hfetch :
      fetchTriples (save_to_database (save_to_database db chat pairs t1)
        chat pairs t2) chatQ =
      fetchTriples (save_to_database db chat pairs t1) chatQ := by
    cases hb : (save_to_database db chat pairs t1).failing
    · rw [fetchTriples_eq_proj _ _ (hfail.trans hb),
        fetchTriples_eq_proj _ _ hb, hrows]
    · simp [fetchTriples, hfail.trans hb, hb]
  constructor
  · simp [build_markov_model, hfetch]
  · unfold edgeWeight
    rw [countP_projAll, countP_projAll, hrows]

/-- Claim C1, counterexample to the original claim: ingesting the message
"a b" twice into an empty store leaves the `((START, a) → b)` edge at
weight 1 after both the first and the second call — the second identical
call does not double it to 2. -/
theorem claim_C1_counterexample :
    edgeWeight c1db1 1 ("<START>", "a") "b" = 1 ∧
    edgeWeight c1db2 1 ("<START>", "a") "b" = 1 ∧
    edgeWeight c1db2 1 ("<START>", "a") "b" ≠
      2 * edgeWeight c1db1 1 ("<START>", "a") "b" := by
  refine ⟨by decide, by decide, by decide⟩

/-- Claim C9: the store never holds two rows with the same
`(chat_id, word1, word2, next_word)` key (a `save_to_database` call
preserves key-uniqueness); re-saving triples that are all already stored
leaves the key projection of the store exactly unchanged; and an upsert of
an already-present key refreshes that row (some stored row matches the key
and carries the new `updated_at`). -/
theorem claim_C9 (db : DB) (chat : Int) (pairs : List WordTriple)
    (now : Nat) :
    ((projAll db.rows).Nodup →
      (projAll (save_to_database db chat pairs now).rows).Nodup) ∧
    ((∀ p ∈ pairs, (chat, p.1, p.2.1, p.2.2) ∈ projAll db.rows) →
      projAll (save_to_database db chat pairs now).rows = projAll db.rows) ∧
    (∀ w1 w2 nw : String, (chat, w1, w2, nw) ∈ projAll db.rows →
      (upsertRow db.rows chat w1 w2 nw now).any
        (fun r => rowMatches chat w1 w2 nw r && r.updated_at == now) =
          true) := by
  refine ⟨?_, ?_, ?_⟩
  · intro hnd
    unfold save_to_database
    split
    · exact hnd
    · split
      · exact hnd
      · exact saveLoop_nodup chat now pairs db.rows hnd
  · intro hmem
    unfold save_to_database
    split
    · rfl
    · split
      · rfl
      · exact saveLoop_id chat now pairs db.rows hmem
  · intro w1 w2 nw hk
    have hany : db.rows.any (rowMatches chat w1 w2 nw) = true :=
      (any_rowMatches db.rows chat w1 w2 nw).mpr hk
    unfold upsertRow
    rw [if_pos hany]
    exact updateFirst_sets chat w1 w2 nw now db.rows hany

/-- Claim C9 witness: re-saving the already-stored triple `(START, a, b)`
keeps the keys duplicate-free and unchanged, and refreshes the matching
row to the new `updated_at`. -/
theorem claim_C9_witness :
    (projAll (save_to_database c9db 1 c9pairs 9).rows).Nodup ∧
    projAll (save_to_database c9db 1 c9pairs 9).rows = projAll c9db.rows ∧
    (upsertRow c9db.rows 1 "<START>" "a" "b" 9).any
      (fun r => rowMatches 1 "<START>" "a" "b" r && r.updated_at == 9) =
        true :=
  ⟨(claim_C9 c9db 1 c9pairs 9).1 (by decide),
   (claim_C9 c9db 1 c9pairs 9).2.1 (by decide),
   (claim_C9 c9db 1 c9pairs 9).2.2 "<START>" "a" "b" (by decide)⟩

/-- Claim C2 (amended form): on a storage fault, `save_to_database` is a
no-op, `word_exists_in_db` returns false, `get_random_word_from_db` returns
none, and the standalone bot's `DatabaseManager.fetch_markov_data` returns
the empty list (so `MarkovChainGenerator.generate` degrades to its fixed
no-data reply); but `build_markov_model` — whose fetch is not wrapped in
`try/except` — propagates the error, and `generate_message` with it. -/
theorem claim_C2 (db : DB) (h : db.failing = true) :
    (∀ chat pairs now, save_to_database db chat pairs now = db) ∧
    (∀ chat word, word_exists_in_db db chat word = false) ∧
    (∀ chat r, get_random_word_from_db db chat r = none) ∧
    (∀ chat, fetch_markov_data db chat = []) ∧
    (∀ order chat maxLen useAll seed rands,
      MCG_generate order db chat maxLen useAll seed rands =
        botNotEnoughMsg) ∧
    (∀ order chat, build_markov_model order db chat =
      Except.error "database error") ∧
    (∀ order chat L seed rands, generate_message order db chat L seed rands =
      Except.error "database error") := by
  have hbuild : ∀ order chat, build_markov_model order db chat =
      Except.error "database error" := by
    intro order chat
    simp [build_markov_model, fetchTriples, h]
  refine ⟨?_, ?_, ?_, ?_, ?_, hbuild, ?_⟩
  · intro chat pairs now
    simp [save_to_database, h]
  · intro chat word
    simp [word_exists_in_db, h]
  · intro chat r
    simp [get_random_word_from_db, h]
  · intro chat
    simp [fetch_markov_data, h]
  · intro order chat maxLen useAll seed rands
    simp [MCG_generate, MCG_run, MCG_build, fetch_markov_data, h]
  · intro order chat L seed rands
    simp [generate_message, generateTokens, hbuild]

/-- Claim C2 witness: the degradations and the propagation, at a concrete
faulting store. -/
theorem claim_C2_witness :
    save_to_database failDB 1 [("<START>", "a", "b")] 7 = failDB ∧
    word_exists_in_db failDB 1 "a" = false ∧
    get_random_word_from_db failDB 1 0 = none ∧
    fetch_markov_data failDB (some 1) = [] ∧
    MCG_generate 2 failDB 1 20 false none [] = botNotEnoughMsg ∧
    build_markov_model 2 failDB 1 = Except.error "database error" ∧
    generate_message 2 failDB 1 30 none [] =
      Except.error "database error" :=
  ⟨(claim_C2 failDB rfl).1 1 [("<START>", "a", "b")] 7,
   (claim_C2 failDB rfl).2.1 1 "a",
   (claim_C2 failDB rfl).2.2.1 1 0,
   (claim_C2 failDB rfl).2.2.2.1 (some 1),
   (claim_C2 failDB rfl).2.2.2.2.1 2 1 20 false none [],
   (claim_C2 failDB rfl).2.2.2.2.2.1 2 1,
   (claim_C2 failDB rfl).2.2.2.2.2.2 2 1 30 none []⟩

/-- Claim C2, counterexample to the original claim: when the storage layer
raises during the read issued by `build_markov_model`, both it and
`generate_message` propagate the error to the caller instead of degrading
to a safe default. -/
theorem claim_C2_counterexample :
    build_markov_model 2 failDB 1 = Except.error "database error" ∧
    generate_message 2 failDB 1 30 none [] =
      Except.error "database error" :=
  ⟨rfl, rfl⟩

/-- Claim C5 (amended form): `word_exists_in_db` returns true exactly when
the word occurs in the `word1` or `word2` column of some stored row of the
conversation — with no marker exclusion, so the start marker (stored in
`word1` by every ingested message) also counts. -/
theorem claim_C5 (db : DB) (chat : Int) (word : String)
    (h : db.failing = false) :
    word_exists_in_db db chat word = true ↔
      ∃ r ∈ db.rows, r.chat_id = chat ∧
        (r.word1 = word ∨ r.word2 = word) := by
  simp [word_exists_in_db, h, List.countP_pos_iff]

/-- Claim C5 witness: on the store holding the ingested message "a b",
`word_exists_in_db` reports the content word "a", via the row
`(START, a, b)`. -/
theorem claim_C5_witness : word_exists_in_db c5db 1 "a" = true :=
  (claim_C5 c5db 1 "a" rfl).mpr
    ⟨⟨1, "<START>", "a", "b", 0, 0⟩, by decide, by decide⟩

/-- Claim C5, counterexample to the original claim: on a conversation with
stored data (the ingested message "a b"), querying the start marker returns
true — the marker matched the `word1` column — where the claim requires
false. -/
theorem claim_C5_counterexample :
    word_exists_in_db c5db 1 "<START>" = true := by
  decide

lemma walkAux_length_bound (order : Nat) (t : Transitions) (L : Nat) :
    ∀ (fuel : Nat) (st : Ctx) (msg : List String) (rands : List Nat),
      2 * (walkAux order t L fuel st msg rands).length ≤
        max (2 * msg.length) (3 * L + 1) := by
  intro fuel
  induction fuel with
  | zero =>
    intro st msg rands
    exact le_max_left _ _
  | succ n ih =>
    intro st msg rands
    rw [walkAux]
    by_cases hc : 2 * msg.length < 3 * L
    · rw [if_pos hc]
      cases hl : lookupT t st with
      | none => exact le_max_left _ _
      | some succs =>
        simp only []
        by_cases he :
            chooseNext succs msg.length L (rands.headD 0) = END_TOKEN
        · rw [if_pos he]
          exact le_max_left _ _
        · rw [if_neg he]
          have h2 := ih (advance order st
              (chooseNext succs msg.length L (rands.headD 0)))
            (msg ++ [chooseNext succs msg.length L (rands.headD 0)])
            rands.tail
          rw [List.length_append, List.length_singleton] at h2
          have h3 : max (2 * (msg.length + 1)) (3 * L + 1) = 3 * L + 1 :=
            Nat.max_eq_right (by omega)
          rw [h3] at h2
          exact le_trans h2 (le_max_right _ _)
    · rw [if_neg hc]
      exact le_max_left _ _

/-- Claim C6: for every transitions table (self-loops included), starting
state, seed path and `max_length = L`, the walk loop appends at most
`1.5 × L` tokens to the pre-filter message list (the loop re-checks
`len(message) < 1.5 * L` before each append), and — the walk being a total
function with that bound — generation always terminates. -/
theorem claim_C6 (order : Nat) (t : Transitions) (L : Nat) (st : Ctx)
    (msg : List String) (rands : List Nat) (h : 1 ≤ msg.length) :
    2 * ((walkFrom order t L st msg rands).length - msg.length) ≤ 3 * L := by
  have hb := walkAux_length_bound order t L (3 * L + 2) st msg rands
  unfold walkFrom
  rcases Nat.le_total (2 * msg.length) (3 * L + 1) with h1 | h1
  · rw [Nat.max_eq_right h1] at hb
    omega
  · rw [Nat.max_eq_left h1] at hb
    omega

/-- Claim C6 witness: an all-self-loop table at `L = 1` — the walk stops
after one append, within the `1.5 × L` append budget. -/
theorem claim_C6_witness :
    1 ≤ ([("a" : String)] : List String).length ∧
    2 * ((walkFrom 2 [(Ctx.two "a" "a", [("a", 1)])] 1 (Ctx.two "a" "a")
        ["a"] [0, 0, 0]).length - 1) ≤ 3 * 1 :=
  ⟨by decide,
   claim_C6 2 [(Ctx.two "a" "a", [("a", 1)])] 1 (Ctx.two "a" "a") ["a"]
     [0, 0, 0] (by decide)⟩

/-- Claim C7: once the emitted token count exceeds `max_length` and the end
marker is among the current state's candidate successors, the successor
choice is deterministically the end marker — for every random draw — and
the walk stops immediately. -/
theorem claim_C7 (order : Nat) (t : Transitions) (L : Nat) (st : Ctx)
    (msg : List String) (rands : List Nat) (succs : Succs)
    (h1 : lookupT t st = some succs) (h2 : hasEnd succs = true)
    (h3 : msg.length > L) :
    (∀ r : Nat, chooseNext succs msg.length L r = END_TOKEN) ∧
    walkFrom order t L st msg rands = msg := by
  have hch : ∀ r : Nat, chooseNext succs msg.length L r = END_TOKEN := by
    intro r
    have hgt : 2 * msg.length > L := by omega
    simp [chooseNext, hgt, h2, h3]
  refine ⟨hch, ?_⟩
  unfold walkFrom
  rw [show 3 * L + 2 = (3 * L + 1) + 1 from rfl, walkAux]
  by_cases hc : 2 * msg.length < 3 * L
  · rw [if_pos hc, h1]
    simp [hch]
  · rw [if_neg hc]

/-- Claim C7 witness: at `L = 3` with four tokens already emitted and the
end marker available, the walk stops with the message unchanged. -/
theorem claim_C7_witness :
    lookupT c7t (Ctx.two "a" "b") = some [("<END>", 1), ("c", 2)] ∧
    hasEnd [("<END>", 1), ("c", 2)] = true ∧
    ((["w", "x", "y", "z"] : List String).length > 3) ∧
    (chooseNext [("<END>", 1), ("c", 2)] 4 3 0 = END_TOKEN ∧
      walkFrom 2 c7t 3 (Ctx.two "a" "b") ["w", "x", "y", "z"] [0] =
        ["w", "x", "y", "z"]) :=
  ⟨by decide, by decide, by decide,
   ⟨(claim_C7 2 c7t 3 (Ctx.two "a" "b") ["w", "x", "y", "z"] [0]
       [("<END>", 1), ("c", 2)] (by decide) (by decide) (by decide)).1 0,
    (claim_C7 2 c7t 3 (Ctx.two "a" "b") ["w", "x", "y", "z"] [0]
       [("<END>", 1), ("c", 2)] (by decide) (by decide) (by decide)).2⟩⟩

/-- Claim C8: the token list that `generate_message` joins into its output
string never contains the start or the end marker — both are filtered from
the emitted sequence before joining. -/
theorem claim_C8 (order : Nat) (db : DB) (chat : Int) (L : Nat)
    (seed : Option String) (rands : List Nat) :
    START_TOKEN ∉ resultTokens order db chat L seed rands ∧
    END_TOKEN ∉ resultTokens order db chat L seed rands := by
  unfold resultTokens
  cases h : generateTokens order db chat L seed rands with
  | error e => simp
  | ok o =>
    cases o with
    | none => simp
    | some msg =>
      constructor
      · intro hm
        have := (List.mem_filter.mp hm).2
        simp at this
      · intro hm
        have := (List.mem_filter.mp hm).2
        simp at this

lemma choice_mem {α : Type} (l : List α) (r : Nat) (x : α)
    (h : choice l r = some x) : x ∈ l :=
  List.get?_mem h

/-- Claim C3 (amended form): in the standalone bot, a generation run whose
post-filter word list is empty, called with a seed word and from outside
(fallback flag unset), resolves to exactly one retry of the whole
generation without the seed word — the retry runs with the flag set
(`MCG_generate1`), which never retries again. -/
theorem claim_C3 (order : Nat) (db : DB) (chat : Int) (maxLen : Nat)
    (useAll : Bool) (w : String) (rands : List Nat)
    (h : MCG_run order db (if useAll then none else some chat) maxLen
      (some w) rands = RunOut.words []) :
    MCG_generate order db chat maxLen useAll (some w) rands =
      MCG_generate1 order db chat maxLen useAll none rands := by
  unfold MCG_generate
  rw [h]
  simp

/-- Claim C3 witness: a store on which the seeded run of the bot generator
filters the whole message away, so the result is that of the retried
unseeded (flagged) generation. -/
theorem claim_C3_witness :
    MCG_run 2 c3bot (some 1) 20 (some "<END>") [0, 0, 0] =
      RunOut.words [] ∧
    MCG_generate 2 c3bot 1 20 false (some "<END>") [0, 0, 0] =
      MCG_generate1 2 c3bot 1 20 false none [0, 0, 0] :=
  ⟨by decide, claim_C3 2 c3bot 1 20 false "<END>" [0, 0, 0] (by decide)⟩

/-- Claim C3, counterexample to the original claim: in `app/markov.py`,
`generate_message` on `c3db` produces output that is empty after filtering
the markers, yet performs no retry and does not return the fixed fallback
message — it returns the empty string. -/
theorem claim_C3_counterexample :
    resultTokens 2 c3db 1 30 (some "q") [0, 0, 0] = [] ∧
    generate_message 2 c3db 1 30 (some "q") [0, 0, 0] = Except.ok "" ∧
    ("" : String) ≠ cantThinkMsg ∧ ("" : String) ≠ notEnoughMsg :=
  ⟨rfl, rfl, by decide, by decide⟩

/-- Claim C4 (amended form): in the standalone bot's
`_get_initial_state_and_message` (order 2), when no starting state has the
seed word as trailing word, the selection searches all transition contexts
whose leading word equals the seed and, when the draw lands on such a
context, emits BOTH of its words as the first output tokens. -/
theorem claim_C4 (t : Transitions) (starts : List Ctx) (w : String) (r : Nat)
    (st : Ctx) (h0 : starts ≠ []) (hw : w ≠ "")
    (h1 : starts.filter
      (fun s => trailing s == w && (lookupT t s).isSome) = [])
    (h2 : choice ((keysT t).filter
      (fun k => isTwo k && leading k == w && leading k != START_TOKEN)) r =
        some st) :
    MCG_initial 2 t starts (some w) r =
      (some st, [leading st, trailing st]) ∧ leading st = w := by
  have hmem := choice_mem _ r st h2
  have hlead : leading st = w := by
    have hf := (List.mem_filter.mp hmem).2
    simp at hf
    tauto
  refine ⟨?_, hlead⟩
  have hnil : choice ([] : List Ctx) r = none := rfl
  simp [MCG_initial, h0, hw, h1, hnil, h2]

/-- Claim C4 witness: with the single starting state `(START, a)` and the
non-starting context `(z, q)`, seeding with "z" selects `(z, q)` and emits
both of its words. -/
theorem claim_C4_witness :
    MCG_initial 2 c4t [Ctx.two "<START>" "a"] (some "z") 0 =
      (some (Ctx.two "z" "q"),
        [leading (Ctx.two "z" "q"), trailing (Ctx.two "z" "q")]) ∧
    leading (Ctx.two "z" "q") = "z" :=
  claim_C4 c4t [Ctx.two "<START>" "a"] "z" 0 (Ctx.two "z" "q") (by decide)
    (by decide) (by decide) (by decide)

/-- Claim C4, counterexample to the original claim: in `app/markov.py`,
on `c4db` (no starting state trails "z", but the context `(z, q)` exists)
`generate_message` seeded with "z" falls straight back to unseeded
selection: the output tokens are `["a", "b"]`, not led by the two words of
the `(z, ·)` context. -/
theorem claim_C4_counterexample :
    hasStartTrailing 2 c4db 1 "z" = false ∧
    hasCtx 2 c4db 1 (Ctx.two "z" "q") = true ∧
    resultTokens 2 c4db 1 30 (some "z") [0, 0, 0, 0] = ["a", "b"] ∧
    (["a", "b"] : List String).head? ≠ some "z" :=
  ⟨rfl, rfl, rfl, by decide⟩

lemma windows3_tail_mem :
    ∀ (seq : List String) (p : WordTriple), p ∈ windows3 seq →
      p.2.1 ∈ seq.tail ∧ p.2.2 ∈ seq.tail := by
  intro seq
  induction seq with
  | nil => intro p hp; cases hp
  | cons a rest ih =>
    cases rest with
    | nil => intro p hp; cases hp
    | cons b rest2 =>
      cases rest2 with
      | nil => intro p hp; cases hp
      | cons c rest3 =>
        intro p hp
        rw [windows3] at hp
        rcases List.mem_cons.mp hp with he | hm
        · subst he
          exact ⟨List.mem_cons_self _ _,
            List.mem_cons_of_mem _ (List.mem_cons_self _ _)⟩
        · obtain ⟨hm1, hm2⟩ := ih p hm
          exact ⟨List.mem_cons_of_mem _ hm1, List.mem_cons_of_mem _ hm2⟩

lemma pickCum_cases :
    ∀ (l : Succs) (r : Nat), pickCum l r = END_TOKEN ∨
      ∃ p ∈ l, pickCum l r = p.1 := by
  intro l
  induction l with
  | nil => intro r; left; rfl
  | cons a rest ih =>
    intro r
    cases rest with
    | nil =>
      obtain ⟨w, c⟩ := a
      right
      exact ⟨(w, c), List.mem_cons_self _ _, rfl⟩
    | cons b rest2 =>
      obtain ⟨w, c⟩ := a
      by_cases hr : r < c
      · right
        exact ⟨(w, c), List.mem_cons_self _ _, by simp [pickCum, hr]⟩
      · rcases ih (r - c) with h | ⟨p, hp, he⟩
        · left
          simp [pickCum, hr, h]
        · right
          exact ⟨p, List.mem_cons_of_mem _ hp, by simp [pickCum, hr, he]⟩

/-- Claim C10: every triple windowed out of a wrapped token sequence whose
content tokens are not the start marker has a non-start `word2` and
`next_word` (the start marker occupies only the leading position); and the
bot's successor draw `_generate_next_word` never returns the start marker
(it is filtered from the candidates before sampling). -/
theorem claim_C10 :
    (∀ ws : List String, (∀ w ∈ ws, w ≠ START_TOKEN) →
      ∀ p ∈ windows3 (wrapTokens ws),
        p.2.1 ≠ START_TOKEN ∧ p.2.2 ≠ START_TOKEN) ∧
    (∀ (t : Transitions) (st : Ctx) (msgLen maxLen r : Nat),
      MCG_nextWord t st msgLen maxLen r ≠ START_TOKEN) := by
  constructor
  · intro ws h p hp
    obtain ⟨h1, h2⟩ := windows3_tail_mem (wrapTokens ws) p hp
    have htail : (wrapTokens ws).tail = ws ++ [END_TOKEN] := rfl
    rw [htail] at h1 h2
    constructor
    · rcases List.mem_append.mp h1 with hw | he
      · exact h _ hw
      · simp at he
        rw [he]
        decide
    · rcases List.mem_append.mp h2 with hw | he
      · exact h _ hw
      · simp at he
        rw [he]
        decide
  · intro t st msgLen maxLen r
    have hpick : ∀ (l : Succs), (∀ p ∈ l, p.1 ≠ START_TOKEN) →
        ∀ q : Nat, pickCum l q ≠ START_TOKEN := by
      intro l hl q
      rcases pickCum_cases l q with h | ⟨p, hp, he⟩
      · rw [h]
        decide
      · rw [he]
        exact hl p hp
    unfold MCG_nextWord
    generalize lookupT t st = o
    cases o with
    | none =>
      dsimp only
      decide
    | some succs =>
      show (if succs = [] then END_TOKEN
        else if msgLen ≥ maxLen ∧ hasEnd succs then END_TOKEN
        else
          let valid := succs.filter (fun p => p.1 != START_TOKEN)
          if valid = [] then END_TOKEN else weightedPick valid r) ≠
          START_TOKEN
      by_cases h1 : succs = []
      · rw [if_pos h1]
        decide
      · rw [if_neg h1]
        by_cases h2 : msgLen ≥ maxLen ∧ hasEnd succs = true
        · rw [if_pos h2]
          decide
        · rw [if_neg h2]
          dsimp only
          by_cases h3 : succs.filter (fun p => p.1 != START_TOKEN) = []
          · rw [if_pos h3]
            decide
          · rw [if_neg h3]
            unfold weightedPick
            apply hpick
            intro p hp
            have hpf := (List.mem_filter.mp hp).2
            simp at hpf
            exact hpf

/-- Claim C10 witness: the windowed triples of the wrapped message "a b"
have no start marker outside the leading position, and a concrete successor
draw is not the start marker. -/
theorem claim_C10_witness :
    (("b" : String) ≠ START_TOKEN ∧ ("<END>" : String) ≠ START_TOKEN) ∧
    MCG_nextWord c7t (Ctx.two "a" "b") 0 5 0 ≠ START_TOKEN :=
  ⟨claim_C10.1 ["a", "b"] (by decide) ("a", "b", "<END>") (by decide),
   claim_C10.2 c7t (Ctx.two "a" "b") 0 5 0⟩
